import Mathlib

/-!
Verification development for the ai-bgm background-audio player
(`src/aibgm`).  The definitions below are shallow embeddings of the
Python functions named in their doc comments; theorems settle the
specification claims about them.
-/

namespace AiBgm

/-! ## Process probe and termination (`src/aibgm/utils/process.py`) -/

/-- Outcome of the signal-0 probe `os.kill(pid, 0)` for a given pid:
the call succeeds, raises `ProcessLookupError`, or raises
`PermissionError`/`OSError`. -/
inductive ProbeResult where
  | ok
  | noSuchProcess
  | permDenied
deriving DecidableEq, Repr

/-- `ProcessManager.check_process_exists` (process.py:22-40): returns
`True` on a successful probe, `False` on `ProcessLookupError`, and
`True` on `PermissionError`/`OSError` (process exists but is not ours). -/
def check_process_exists (r : ProbeResult) : Bool :=
  match r with
  | .ok => true
  | .noSuchProcess => false
  | .permDenied => true

/-- Behaviour of one target process over a `kill_process` call: the
probe at entry, whether `os.kill(pid, SIGTERM)` raises a
permission-type error, the probe results observed by the graceful wait
loop, whether `os.kill(pid, SIGKILL)` raises a permission-type error
(a `ProcessLookupError` there is caught by the code and is modelled as
no error), and the probe of the final existence check. -/
structure ProcBehavior where
  probe0 : ProbeResult
  sigtermRaises : Bool
  pollProbes : List ProbeResult
  sigkillRaisesPerm : Bool
  finalProbe : ProbeResult

/-- The graceful wait loop of `_kill_unix` (process.py:96-102) returns
early exactly when some poll observes the process gone. -/
def gracefulPollFindsGone (polls : List ProbeResult) : Bool :=
  polls.any (fun r => !check_process_exists r)

/-- `ProcessManager._kill_unix` (process.py:91-113) after the SIGTERM
has been sent: if graceful, poll until the process is gone (returning
`True`), else send SIGKILL (a permission error there escapes to the
caller) and return the negated final existence check; if not graceful,
return the negated final existence check directly. -/
def kill_unix (b : ProcBehavior) (graceful : Bool) : Except Unit Bool :=
  if graceful then
    if gracefulPollFindsGone b.pollProbes then .ok true
    else if b.sigkillRaisesPerm then .error ()
    else .ok (!check_process_exists b.finalProbe)
  else .ok (!check_process_exists b.finalProbe)

/-- `ProcessManager.kill_process` (process.py:42-64) on a Unix host:
return `False` immediately if the entry existence check fails; a
`PermissionError`/`OSError` raised while signalling also yields
`False`; otherwise the result of `_kill_unix`. -/
def kill_process (b : ProcBehavior) (graceful : Bool) : Bool :=
  if !check_process_exists b.probe0 then false
  else if b.sigtermRaises then false
  else
    match kill_unix b graceful with
    | .ok r => r
    | .error _ => false

/-- Whether, after the entry check, some existence probe performed by
`kill_process` reported the process gone: either a poll of the
graceful wait loop, or the final existence check. -/
def confirmed_gone_afterward (b : ProcBehavior) (graceful : Bool) : Bool :=
  if graceful then
    gracefulPollFindsGone b.pollProbes || !check_process_exists b.finalProbe
  else !check_process_exists b.finalProbe

/-! ## PID record write (`src/aibgm/utils/common.py`) -/

/-- Elementary file-system action performed by the PID-record code. -/
inductive FsOp where
  | openTruncate (path : String)
  | write (path : String) (content : String)
  | rename (src : String) (dst : String)
  | unlink (path : String)
deriving DecidableEq, Repr

/-- Path of the PID record file, `~/.config/ai-bgm/bgm_player.pid`
(common.py:45-49). -/
def pid_file_path : String := ".config/ai-bgm/bgm_player.pid"

/-- `save_pid` (common.py:118-122): `open(pid_file, "w")` truncates the
record file in place and writes `str(os.getpid())` into it. -/
def save_pid_trace (pid : Nat) : List FsOp :=
  [FsOp.openTruncate pid_file_path, FsOp.write pid_file_path (toString pid)]

/-- Written from the spec's words, for comparison with the trace of the
source: a trace replaces `target` atomically with write-temp-then-rename
semantics when it renames some file onto `target` and never opens or
writes `target` directly. -/
def isAtomicReplace (tr : List FsOp) (target : String) : Bool :=
  tr.any (fun op =>
    match op with
    | .rename _ d => d == target
    | _ => false) &&
  tr.all (fun op =>
    match op with
    | .openTruncate p => !(p == target)
    | .write p _ => !(p == target)
    | _ => true)

/-- ASCII whitespace removed by Python's `str.strip()` (the record file
is written by `save_pid` and holds only ASCII). -/
def isPySpace (c : Char) : Bool :=
  c == ' ' || c == '\t' || c == '\n' || c == '\r' || c == '\x0b' || c == '\x0c'

/-- Python's `s.strip()`: drop leading and trailing whitespace. -/
def pyStrip (cs : List Char) : List Char :=
  ((cs.dropWhile isPySpace).reverse.dropWhile isPySpace).reverse

/-- Accumulate a run of decimal digits; any non-digit raises
`ValueError` (`none`). -/
def parseNatDigits (cs : List Char) (acc : Nat) : Option Nat :=
  match cs with
  | [] => some acc
  | c :: rest =>
    if c.isDigit then parseNatDigits rest (acc * 10 + (c.toNat - 48)) else none

/-- Python's `int(s.strip())` applied to the content of a record file:
strip surrounding whitespace, then parse an optionally signed run of
decimal digits; any other content raises `ValueError` (`none`).
Underscore digit grouping and non-ASCII digits are outside the values
the program ever writes and are not modelled. -/
def parse_int (s : String) : Option Int :=
  match pyStrip s.data with
  | [] => none
  | '-' :: rest =>
    if rest.isEmpty then none
    else (parseNatDigits rest 0).map (fun n => -(n : Int))
  | '+' :: rest =>
    if rest.isEmpty then none
    else (parseNatDigits rest 0).map (fun n => (n : Int))
  | cs => (parseNatDigits cs 0).map (fun n => (n : Int))

/-- Outcome of the worker's termination-signal handler: the content of
the PID record file afterwards, and the process exit code. -/
structure HandlerResult where
  pidFile : Option String
  exitCode : Nat
deriving DecidableEq, Repr

/-- The `signal_handler` closure of `run_player_daemon`
(play.py:278-298): if the PID record file exists, read it and parse an
integer; if parsing raises, the exception is caught and the file is
left alone; if the parsed value equals the worker's own PID, remove
the file (`cleanup_pid`, common.py:125-129), otherwise leave it; in
every case finish with `sys.exit(0)`. -/
def signal_handler (current_pid : Int) (pidFile : Option String) :
    HandlerResult :=
  match pidFile with
  | none => { pidFile := none, exitCode := 0 }
  | some s =>
    match parse_int s with
    | none => { pidFile := some s, exitCode := 0 }
    | some saved =>
      if saved = current_pid then { pidFile := none, exitCode := 0 }
      else { pidFile := some s, exitCode := 0 }

/-! ## Log rotation (`src/aibgm/utils/logger.py`) -/

/-- Rotation configuration of a `LogManager` (logger.py:26-42). -/
structure LogConfig where
  max_lines : Nat
  keep_lines : Nat
deriving DecidableEq, Repr

/-- The one-line rotation marker
`f"[Log rotated: kept last {len(recent_lines)} lines]"`
(logger.py:79). -/
def rotationMarker (n : Nat) : String :=
  "[Log rotated: kept last " ++ toString n ++ " lines]"

/-- Python's `lines[-keep:]`: for `keep = 0` the slice is `lines[0:]`,
the whole list; for `keep ≥ len(lines)` also the whole list; otherwise
the last `keep` elements. -/
def pyTakeLast (xs : List String) (keep : Nat) : List String :=
  if keep = 0 then xs else xs.drop (xs.length - keep)

/-- The part of the file system `rotate_if_needed` can touch: the log
file and its `.log.tmp` sibling, each either absent or a list of
lines. -/
structure LogFs where
  log : Option (List String)
  tmp : Option (List String)
deriving DecidableEq, Repr

/-- `LogManager.rotate_if_needed` (logger.py:47-88): a missing log file
is a no-op; a line count at most `max_lines` is a no-op; otherwise
write the rotation marker followed by the last `keep_lines` lines
(Python slice `lines[-keep_lines:]`) to the temp file and rename it
over the log file. -/
def rotate_if_needed (c : LogConfig) (fs : LogFs) : LogFs :=
  match fs.log with
  | none => fs
  | some lines =>
    if lines.length ≤ c.max_lines then fs
    else
      let recent := pyTakeLast lines c.keep_lines
      { log := some (rotationMarker recent.length :: recent), tmp := none }

/-! ## Playback loop count (`src/aibgm/commands/play.py`) -/

/-- The `loops` argument `play_music` (play.py:142-156) passes to
`pygame.mixer.music.play`: `-1` when the requested repeat count is `0`,
otherwise `repeat - 1`. -/
def playMusicLoopsArg (repeatCount : Int) : Int :=
  if repeatCount = 0 then -1 else repeatCount - 1

/-- Documented semantics of the external mixer: `play(loops)` plays the
file `loops + 1` times, and `loops = -1` loops indefinitely (`none`). -/
def mixerPlayCount (loops : Int) : Option Int :=
  if loops = -1 then none else some (loops + 1)

/-! ## System model for stop, toggle and background start
(`src/aibgm/commands/stop.py`, `toggle.py`, `play.py`)

The model tracks the PID record file, the set of live processes, and
which processes `pgrep -f "ai-bgm play --daemon"` would report; probes
answer ground-truth liveness (the permission-denied refinement is
covered by the `ProbeResult` model above).  A process either exits
during the graceful wait after SIGTERM (`diesOnTerm`) or survives the
whole wait and is then force-killed; SIGKILL always removes a live
process.  Each command yields its result, the successor state, and the
trace of observable actions it performed. -/

/-- One observable action of the stop / toggle / start commands. -/
inductive Op where
  | pgrep
  | probe (pid : Int)
  | sigterm (pid : Int)
  | sigkill (pid : Int)
  | readPid
  | unlinkPid
  | acquireLock
  | releaseLock
  | spawnDaemon (cue : String) (loopCount : Int)
deriving DecidableEq, Repr

/-- Host state seen by the CLI commands. -/
structure SysState where
  pidFile : Option String
  procs : List Int
  daemonPat : List Int
  diesOnTerm : Int → Bool
  pgrepAvailable : Bool

/-- Ground-truth liveness of a pid. -/
def alive (st : SysState) (p : Int) : Bool := st.procs.contains p

/-- Output of `pgrep -f "ai-bgm play --daemon"`: the live processes
whose command line matches the daemon pattern. -/
def pgrepList (st : SysState) : List Int :=
  st.daemonPat.filter (fun p => alive st p)

/-- Effect of delivering SIGTERM to `p`: it leaves the process table
during the graceful wait iff `diesOnTerm p`. -/
def termProc (st : SysState) (p : Int) : SysState :=
  if st.diesOnTerm p then
    { st with procs := st.procs.filter (fun q => q != p) }
  else st

/-- Effect of delivering SIGKILL to `p`: the process is removed. -/
def killProc (st : SysState) (p : Int) : SysState :=
  { st with procs := st.procs.filter (fun q => q != p) }

/-- The SIGTERM loop of `kill_existing_player` (stop.py:41-46):
signal every pid `pgrep` reported, in order. -/
def sigtermAll (st : SysState) (ds : List Int) : SysState × List Op :=
  (ds.foldl termProc st, ds.map Op.sigterm)

/-- The force-kill loop of `kill_existing_player` (stop.py:66-72):
SIGKILL every remaining pid. -/
def sigkillAll (st : SysState) (ds : List Int) : SysState :=
  { st with procs := st.procs.filter (fun q => !ds.contains q) }

/-- Result of `kill_existing_player`. -/
structure KResult where
  killed : Bool
  st : SysState
  ops : List Op

/-- The trailing cleanup of `kill_existing_player` (stop.py:115-121):
unlink the PID record file if it exists, then return `killed_any`. -/
def cleanupBottom (killed : Bool) (st : SysState) (ops : List Op) :
    KResult :=
  match st.pidFile with
  | none => { killed := killed, st := st, ops := ops }
  | some _ =>
    { killed := killed, st := { st with pidFile := none },
      ops := ops ++ [Op.unlinkPid] }

/-- `kill_existing_player` (stop.py:19-123).  With `pgrep` available:
list matching processes, SIGTERM each, poll `pgrep` during the
graceful wait (one poll if they are all gone, the full 20 plus a
re-listing otherwise, then SIGKILL the remainder), and finally unlink
the PID record file if present.  Without `pgrep`
(`FileNotFoundError`), fall back to the record: absent or unparseable
record returns `False` untouched; a record naming a dead process is
unlinked and returns `False`; a live recorded process is terminated
(SIGTERM, then probes, then SIGKILL if it survived the wait) and the
bottom cleanup runs. -/
def kill_existing_player (st : SysState) : KResult :=
  if st.pgrepAvailable then
    let ds := pgrepList st
    if ds.isEmpty then cleanupBottom false st [Op.pgrep]
    else
      let r := sigtermAll st ds
      let rem := pgrepList r.1
      if rem.isEmpty then
        cleanupBottom true r.1 (Op.pgrep :: r.2 ++ [Op.pgrep])
      else
        cleanupBottom true (sigkillAll r.1 rem)
          (Op.pgrep :: r.2 ++ List.replicate 20 Op.pgrep ++ [Op.pgrep]
            ++ rem.map Op.sigkill)
  else
    match st.pidFile with
    | none => { killed := false, st := st, ops := [] }
    | some s =>
      match parse_int s with
      | none => { killed := false, st := st, ops := [Op.readPid] }
      | some pid =>
        if alive st pid then
          let st1 := termProc st pid
          if alive st1 pid then
            cleanupBottom true (killProc st1 pid)
              ([Op.readPid, Op.probe pid, Op.sigterm pid] ++
               List.replicate 20 (Op.probe pid) ++ [Op.sigkill pid])
          else
            cleanupBottom true st1
              [Op.readPid, Op.probe pid, Op.sigterm pid, Op.probe pid]
        else
          { killed := false, st := { st with pidFile := none },
            ops := [Op.readPid, Op.probe pid, Op.unlinkPid] }

/-- Result of a whole CLI command: echoed lines, successor state, and
the trace of actions. -/
structure CmdResult where
  echo : List String
  st : SysState
  ops : List Op

/-- The `stop` command (stop.py:126-148): acquire the exclusion lock,
run `kill_existing_player`, report, release the lock. -/
def stop (st : SysState) : CmdResult :=
  let r := kill_existing_player st
  { echo := [if r.killed then "Stopped BGM player"
             else "No BGM player is currently running"],
    st := r.st,
    ops := Op.acquireLock :: r.ops ++ [Op.releaseLock] }

/-- `ProcessManager.kill_process` (process.py:42-64, graceful with a
2-second timeout) within the system model: entry probe, SIGTERM, one
poll if the process died during the wait, else the full 20 polls, a
SIGKILL and a final probe. -/
def PM_kill (st : SysState) (pid : Int) : Bool × SysState × List Op :=
  if alive st pid then
    let st1 := termProc st pid
    if alive st1 pid then
      (true, killProc st1 pid,
       [Op.probe pid, Op.sigterm pid] ++ List.replicate 20 (Op.probe pid)
         ++ [Op.sigkill pid, Op.probe pid])
    else
      (true, st1, [Op.probe pid, Op.sigterm pid, Op.probe pid])
  else (false, st, [Op.probe pid])

/-- `kill_existing_process` (play.py:31-61): absent record returns
`False`; unparseable record returns `False` untouched; a record naming
a dead process is unlinked; a live recorded process goes through
`ProcessManager.kill_process` and the record is then unlinked. -/
def kill_existing_process (st : SysState) : Bool × SysState × List Op :=
  match st.pidFile with
  | none => (false, st, [])
  | some s =>
    match parse_int s with
    | none => (false, st, [Op.readPid])
    | some pid =>
      if alive st pid then
        let r := PM_kill st pid
        (r.1, { r.2.1 with pidFile := none },
         [Op.readPid, Op.probe pid] ++ r.2.2 ++ [Op.unlinkPid])
      else
        (false, { st with pidFile := none },
         [Op.readPid, Op.probe pid, Op.unlinkPid])

/-- The diagnostic read-back of `start_background_player`
(play.py:242-249): read the PID record if it exists. -/
def readBackOps (o : Option String) : List Op :=
  match o with
  | none => []
  | some _ => [Op.readPid]

/-- `start_background_player` (play.py:195-249): under the exclusion
lock, replace any existing player, spawn the detached daemon and, if a
PID record is present after the grace wait, read it back for the
diagnostic echo.  The spawned daemon's own actions (its `save_pid`)
happen in a separate process and are not part of this call's trace. -/
def start_background_player (st : SysState) (cue : String)
    (loopCount : Int) : CmdResult :=
  let r := kill_existing_process st
  { echo := (if r.1 then ["Stopped previous BGM player"] else []) ++
            ["BGM player started in background"],
    st := r.2.1,
    ops := Op.acquireLock :: r.2.2 ++ [Op.spawnDaemon cue loopCount] ++
           readBackOps r.2.1.pidFile ++ [Op.releaseLock] }

/-- Result of the advisory liveness check of `toggle`. -/
structure PlayingResult where
  playing : Bool
  st : SysState
  ops : List Op

/-- `is_bgm_playing` (toggle.py:16-41): no record or an unparseable
record means not playing; a record naming a live process means
playing; a record naming a dead process is unlinked and means not
playing.  No lock is taken. -/
def is_bgm_playing (st : SysState) : PlayingResult :=
  match st.pidFile with
  | none => { playing := false, st := st, ops := [] }
  | some s =>
    match parse_int s with
    | none => { playing := false, st := st, ops := [Op.readPid] }
    | some pid =>
      if alive st pid then
        { playing := true, st := st, ops := [Op.readPid, Op.probe pid] }
      else
        { playing := false, st := { st with pidFile := none },
          ops := [Op.readPid, Op.probe pid, Op.unlinkPid] }

/-- The `toggle` command (toggle.py:44-59): if `is_bgm_playing`, call
`kill_existing_player` directly and report; otherwise call
`start_background_player("work", 0)`. -/
def toggle (st : SysState) : CmdResult :=
  let pr := is_bgm_playing st
  if pr.playing then
    let r := kill_existing_player pr.st
    { echo := [if r.killed then "Stopped BGM player"
               else "No BGM player is currently running"],
      st := r.st,
      ops := pr.ops ++ r.ops }
  else
    let r := start_background_player pr.st "work" 0
    { echo := r.echo, st := r.st, ops := pr.ops ++ r.ops }

/-! ## Claim theorems (process probe, PID write, loop count) -/

/-- C6: `check_process_exists` returns false exactly when the signal-0
probe reports the process does not exist, and returns true when the
probe raises a permission-denied error. -/
theorem C6_check_process_exists :
    (∀ r : ProbeResult,
      check_process_exists r = false ↔ r = ProbeResult.noSuchProcess) ∧
    check_process_exists ProbeResult.permDenied = true := by
  constructor
  · intro r
    cases r <;> simp [check_process_exists]
  · rfl

/-- C1 counterexample: on an already-dead process (entry probe reports
`ProcessLookupError`), `kill_process` returns `false` even though the
process is confirmed gone, refuting "returns true iff the process is
confirmed gone afterward; calling it on an already-dead process
returns true". -/
theorem C1_counterexample :
    kill_process
      { probe0 := ProbeResult.noSuchProcess, sigtermRaises := false,
        pollProbes := [], sigkillRaisesPerm := false,
        finalProbe := ProbeResult.noSuchProcess } true = false ∧
    confirmed_gone_afterward
      { probe0 := ProbeResult.noSuchProcess, sigtermRaises := false,
        pollProbes := [], sigkillRaisesPerm := false,
        finalProbe := ProbeResult.noSuchProcess } true = true := by
  constructor <;> rfl

/-- C1 amended: `kill_process` returns `false` whenever the entry
existence check reports the process already gone (so it is safe, but
returns `false`, on an already-dead process); when the entry check
reports the process alive and no permission error is raised while
signalling, it returns true iff a subsequent existence probe confirmed
the process gone. -/
theorem C1_amended (b : ProcBehavior) (graceful : Bool)
    (h1 : b.sigtermRaises = false) (h2 : b.sigkillRaisesPerm = false) :
    (check_process_exists b.probe0 = false →
      kill_process b graceful = false) ∧
    (check_process_exists b.probe0 = true →
      kill_process b graceful = confirmed_gone_afterward b graceful) := by
  constructor
  · intro h0
    simp [kill_process, h0]
  · intro h0
    simp only [kill_process, kill_unix, confirmed_gone_afterward, h0, h1, h2]
    cases graceful <;> cases hg : gracefulPollFindsGone b.pollProbes <;> simp [hg]

/-- C1 amended, witnessed at a behaviour whose first graceful poll
reports the process gone. -/
theorem C1_amended_witness :
    (check_process_exists ProbeResult.ok = false →
      kill_process
        { probe0 := ProbeResult.ok, sigtermRaises := false,
          pollProbes := [ProbeResult.noSuchProcess],
          sigkillRaisesPerm := false,
          finalProbe := ProbeResult.noSuchProcess } true = false) ∧
    (check_process_exists ProbeResult.ok = true →
      kill_process
        { probe0 := ProbeResult.ok, sigtermRaises := false,
          pollProbes := [ProbeResult.noSuchProcess],
          sigkillRaisesPerm := false,
          finalProbe := ProbeResult.noSuchProcess } true =
      confirmed_gone_afterward
        { probe0 := ProbeResult.ok, sigtermRaises := false,
          pollProbes := [ProbeResult.noSuchProcess],
          sigkillRaisesPerm := false,
          finalProbe := ProbeResult.noSuchProcess } true) :=
  C1_amended
    { probe0 := ProbeResult.ok, sigtermRaises := false,
      pollProbes := [ProbeResult.noSuchProcess],
      sigkillRaisesPerm := false,
      finalProbe := ProbeResult.noSuchProcess } true rfl rfl

/-- C2 counterexample: the file-operation trace of `save_pid` for pid
123 is not an atomic write-temp-then-rename replacement of the record:
it opens and writes the record file directly and performs no rename. -/
theorem C2_counterexample :
    isAtomicReplace (save_pid_trace 123) pid_file_path = false := by
  rfl

/-- C2 amended: `save_pid` writes the worker's PID directly into the
record file — its trace truncates the record file in place and writes
the decimal PID — with no temporary file and no rename, so the
replacement is not atomic. -/
theorem C2_amended (pid : Nat) :
    save_pid_trace pid =
      [FsOp.openTruncate pid_file_path,
       FsOp.write pid_file_path (toString pid)] ∧
    isAtomicReplace (save_pid_trace pid) pid_file_path = false := by
  constructor
  · rfl
  · simp [isAtomicReplace, save_pid_trace]

/-- C8: the worker's playback routine maps a repeat count of 0 to mixer
`loops = -1` (looping forever), and a repeat count n ≥ 1 to mixer
`loops = n - 1`, which plays the file exactly n times. -/
theorem C8_repeat_count (n : Int) (h : 1 ≤ n) :
    playMusicLoopsArg 0 = -1 ∧
    mixerPlayCount (playMusicLoopsArg 0) = none ∧
    playMusicLoopsArg n = n - 1 ∧
    mixerPlayCount (playMusicLoopsArg n) = some n := by
  have hn0 : n ≠ 0 := by omega
  refine ⟨rfl, rfl, ?_, ?_⟩
  · simp [playMusicLoopsArg, hn0]
  · have hn1 : n - 1 ≠ -1 := by omega
    simp [playMusicLoopsArg, mixerPlayCount, hn0, hn1]

/-- C8, witnessed at repeat count 3: the mixer is asked for
`loops = 2`, i.e. exactly 3 plays. -/
theorem C8_repeat_count_witness :
    playMusicLoopsArg 0 = -1 ∧
    mixerPlayCount (playMusicLoopsArg 0) = none ∧
    playMusicLoopsArg 3 = 3 - 1 ∧
    mixerPlayCount (playMusicLoopsArg 3) = some 3 :=
  C8_repeat_count 3 (by norm_num)

/-- C3: on a termination signal, the worker's handler clears the PID
record file iff its parsed content equals the worker's own PID, leaves
the file unmodified when it holds a different PID, and exits with code
zero in both cases. -/
theorem C3_signal_handler (cur saved : Int) (s : String)
    (hs : parse_int s = some saved) :
    (signal_handler cur (some s)).exitCode = 0 ∧
    (signal_handler cur (some s)).pidFile =
      (if saved = cur then none else some s) := by
  constructor
  · simp only [signal_handler, hs]
    split <;> rfl
  · simp only [signal_handler, hs]
    split <;> rfl

/-- C3, witnessed at PID 7 with the record holding "7" (cleared) and
with the record holding "9" (left alone); exit code 0 both times. -/
theorem C3_signal_handler_witness :
    ((signal_handler 7 (some "7")).exitCode = 0 ∧
     (signal_handler 7 (some "7")).pidFile =
       (if (7 : Int) = 7 then none else some "7")) ∧
    ((signal_handler 7 (some "9")).exitCode = 0 ∧
     (signal_handler 7 (some "9")).pidFile =
       (if (9 : Int) = 7 then none else some "9")) :=
  ⟨C3_signal_handler 7 7 "7" (by decide),
   C3_signal_handler 7 9 "9" (by decide)⟩

/-- C5: on a 1500-line log with `max_lines = 1000, keep_lines = 500`,
`rotate_if_needed` rewrites the file to the rotation marker (stating
that 500 lines were kept) followed by exactly the last 500 original
lines verbatim and in order — 501 lines in all. -/
theorem C5_log_bound (lines : List String) (t : Option (List String))
    (h : lines.length = 1500) :
    rotate_if_needed ⟨1000, 500⟩ { log := some lines, tmp := t } =
      { log := some (rotationMarker 500 :: lines.drop 1000), tmp := none } ∧
    (rotationMarker 500 :: lines.drop 1000).length = 501 := by
  have hgt : ¬ lines.length ≤ 1000 := by omega
  have hdrop : (lines.drop 1000).length = 500 := by
    rw [List.length_drop, h]
  have hrec : pyTakeLast lines 500 = lines.drop 1000 := by
    unfold pyTakeLast
    rw [if_neg (by norm_num), h]
  constructor
  · simp only [rotate_if_needed]
    rw [if_neg hgt, hrec, hdrop]
  · rw [List.length_cons, hdrop]

/-- C5, witnessed on a concrete 1500-line file. -/
theorem C5_log_bound_witness :
    rotate_if_needed ⟨1000, 500⟩
        { log := some (List.replicate 1500 "x"), tmp := none } =
      { log := some (rotationMarker 500 ::
          (List.replicate 1500 "x").drop 1000), tmp := none } ∧
    (rotationMarker 500 :: (List.replicate 1500 "x").drop 1000).length
      = 501 :=
  C5_log_bound (List.replicate 1500 "x") none (by rw [List.length_replicate])

/-- C9: `rotate_if_needed` leaves the log file and the temp file
unchanged whenever the log file does not exist or its line count is at
most `max_lines` — in particular a file of exactly `max_lines` lines
is not rotated. -/
theorem C9_rotate_noop (c : LogConfig) (fs : LogFs)
    (h : fs.log = none ∨
         ∃ lines, fs.log = some lines ∧ lines.length ≤ c.max_lines) :
    rotate_if_needed c fs = fs := by
  rcases h with h | ⟨lines, hl, hle⟩
  · simp [rotate_if_needed, h]
  · simp [rotate_if_needed, hl, hle]

/-- C9, witnessed on a file of exactly `max_lines = 2` lines. -/
theorem C9_rotate_noop_witness :
    rotate_if_needed ⟨2, 1⟩ { log := some ["a", "b"], tmp := none } =
      { log := some ["a", "b"], tmp := none } :=
  C9_rotate_noop ⟨2, 1⟩ { log := some ["a", "b"], tmp := none }
    (Or.inr ⟨["a", "b"], rfl, by simp⟩)

/-- C10: with `keep_lines = 0` and a log longer than `max_lines`, the
Python slice `lines[-0:]` keeps every line, so the rewritten file is
the rotation marker followed by all original lines and its line count
grows by one instead of shrinking to `keep_lines`. -/
theorem C10_keep_zero (c : LogConfig) (lines : List String)
    (t : Option (List String))
    (hk : c.keep_lines = 0) (hm : c.max_lines < lines.length) :
    rotate_if_needed c { log := some lines, tmp := t } =
      { log := some (rotationMarker lines.length :: lines), tmp := none } ∧
    (rotationMarker lines.length :: lines).length = lines.length + 1 := by
  have hgt : ¬ lines.length ≤ c.max_lines := by omega
  constructor
  · simp [rotate_if_needed, pyTakeLast, hk, hgt]
  · simp

/-- C10, witnessed on a 3-line file with `max_lines = 2,
keep_lines = 0`: the result is the marker plus all 3 lines. -/
theorem C10_keep_zero_witness :
    rotate_if_needed ⟨2, 0⟩ { log := some ["a", "b", "c"], tmp := none } =
      { log := some (rotationMarker (["a", "b", "c"] : List String).length
          :: ["a", "b", "c"]), tmp := none } ∧
    (rotationMarker (["a", "b", "c"] : List String).length
        :: ["a", "b", "c"]).length =
      (["a", "b", "c"] : List String).length + 1 :=
  C10_keep_zero ⟨2, 0⟩ ["a", "b", "c"] none rfl (by simp)

/-! ## Lock-freedom of the helper paths -/

/-- The bottom cleanup adds no lock acquisition. -/
theorem lock_not_mem_cleanupBottom (k : Bool) (st : SysState)
    (ops : List Op) (h : Op.acquireLock ∉ ops) :
    Op.acquireLock ∉ (cleanupBottom k st ops).ops := by
  unfold cleanupBottom
  split <;> simp_all

/-- `kill_existing_player` acquires no lock on any path. -/
theorem lock_not_mem_kill_existing_player (st : SysState) :
    Op.acquireLock ∉ (kill_existing_player st).ops := by
  unfold kill_existing_player
  split
  · dsimp only
    split
    · exact lock_not_mem_cleanupBottom _ _ _ (by simp)
    · dsimp only [sigtermAll]
      split
      · exact lock_not_mem_cleanupBottom _ _ _ (by simp)
      · exact lock_not_mem_cleanupBottom _ _ _
          (by simp [List.mem_replicate])
  · split
    · simp
    · split
      · simp
      · split
        · dsimp only
          split
          · exact lock_not_mem_cleanupBottom _ _ _
              (by simp [List.mem_replicate])
          · exact lock_not_mem_cleanupBottom _ _ _ (by simp)
        · simp

/-- `ProcessManager.kill_process` acquires no lock. -/
theorem lock_not_mem_PM_kill (st : SysState) (pid : Int) :
    Op.acquireLock ∉ (PM_kill st pid).2.2 := by
  unfold PM_kill
  split
  · dsimp only
    split <;> simp [List.mem_replicate]
  · simp

/-- `kill_existing_process` acquires no lock. -/
theorem lock_not_mem_kill_existing_process (st : SysState) :
    Op.acquireLock ∉ (kill_existing_process st).2.2 := by
  unfold kill_existing_process
  split
  · simp
  · split
    · simp
    · split
      · simp [lock_not_mem_PM_kill]
      · simp

/-- The advisory check of `toggle` acquires no lock. -/
theorem lock_not_mem_is_bgm_playing (st : SysState) :
    Op.acquireLock ∉ (is_bgm_playing st).ops := by
  unfold is_bgm_playing
  split
  · simp
  · split
    · simp
    · split <;> simp

/-! ## Claim theorems (stop and toggle) -/

/-- State for C4: the PID record names process 5, which is alive,
matches the daemon pattern, and dies on SIGTERM. -/
def c4State : SysState :=
  { pidFile := some "5", procs := [5], daemonPat := [5],
    diesOnTerm := fun _ => true, pgrepAvailable := true }

/-- C4 counterexample: with a live recorded process, `toggle`
terminates it (the trace carries its SIGTERM) without ever acquiring
the exclusion lock — it calls `kill_existing_player` directly rather
than the lock-guarded stop path the claim describes. -/
theorem C4_counterexample :
    (toggle c4State).ops =
      [Op.readPid, Op.probe 5, Op.pgrep, Op.sigterm 5, Op.pgrep,
       Op.unlinkPid] ∧
    Op.acquireLock ∉ (toggle c4State).ops := by
  have h : (toggle c4State).ops =
      [Op.readPid, Op.probe 5, Op.pgrep, Op.sigterm 5, Op.pgrep,
       Op.unlinkPid] := by rfl
  exact ⟨h, by rw [h]; decide⟩

/-- C4 amended: `toggle` reads the identity record without the lock to
decide intent; if the recorded process is alive it delegates directly
to `kill_existing_player`, which re-validates liveness but performs no
lock acquisition anywhere in its trace; otherwise it delegates to
`start_background_player` with cue `work` and repeat 0, whose whole
trace runs between one lock acquisition and its release and spawns
the daemon inside that critical section. -/
theorem C4_amended (st : SysState) :
    ((is_bgm_playing st).playing = true →
      (toggle st).ops =
        (is_bgm_playing st).ops ++
          (kill_existing_player (is_bgm_playing st).st).ops ∧
      Op.acquireLock ∉ (toggle st).ops) ∧
    ((is_bgm_playing st).playing = false →
      (toggle st).ops =
        (is_bgm_playing st).ops ++
          (start_background_player (is_bgm_playing st).st "work" 0).ops ∧
      ∃ mid,
        (start_background_player (is_bgm_playing st).st "work" 0).ops =
          Op.acquireLock :: mid ++ [Op.releaseLock] ∧
        Op.spawnDaemon "work" 0 ∈ mid ∧
        Op.acquireLock ∉ mid) := by
  constructor
  · intro hp
    have he : (toggle st).ops =
        (is_bgm_playing st).ops ++
          (kill_existing_player (is_bgm_playing st).st).ops := by
      simp only [toggle, hp, if_true]
    refine ⟨he, ?_⟩
    rw [he]
    simp [lock_not_mem_is_bgm_playing, lock_not_mem_kill_existing_player]
  · intro hp
    have he : (toggle st).ops =
        (is_bgm_playing st).ops ++
          (start_background_player (is_bgm_playing st).st "work" 0).ops := by
      simp [toggle, hp]
    refine ⟨he, ?_⟩
    refine ⟨(kill_existing_process (is_bgm_playing st).st).2.2 ++
      [Op.spawnDaemon "work" 0] ++
      readBackOps
        (kill_existing_process (is_bgm_playing st).st).2.1.pidFile,
      ?_, ?_, ?_⟩
    · simp [start_background_player, List.append_assoc]
    · simp
    · have hrb : Op.acquireLock ∉
          readBackOps
            (kill_existing_process (is_bgm_playing st).st).2.1.pidFile := by
        unfold readBackOps
        split <;> simp
      simp [lock_not_mem_kill_existing_process, hrb]

/-- Playing-free state for the C4 witness: no record, no processes. -/
def c4StartState : SysState :=
  { pidFile := none, procs := [], daemonPat := [],
    diesOnTerm := fun _ => false, pgrepAvailable := true }

/-- C4 amended, witnessed at a playing state (stop branch, no lock in
the trace) and at an idle state (start branch, lock-wrapped trace
spawning the `work` daemon with repeat 0). -/
theorem C4_amended_witness :
    ((toggle c4State).ops =
        (is_bgm_playing c4State).ops ++
          (kill_existing_player (is_bgm_playing c4State).st).ops ∧
      Op.acquireLock ∉ (toggle c4State).ops) ∧
    ((toggle c4StartState).ops =
        (is_bgm_playing c4StartState).ops ++
          (start_background_player (is_bgm_playing c4StartState).st
            "work" 0).ops ∧
      ∃ mid,
        (start_background_player (is_bgm_playing c4StartState).st
            "work" 0).ops =
          Op.acquireLock :: mid ++ [Op.releaseLock] ∧
        Op.spawnDaemon "work" 0 ∈ mid ∧
        Op.acquireLock ∉ mid) :=
  ⟨(C4_amended c4State).1 rfl, (C4_amended c4StartState).2 rfl⟩

/-- State for C7: no PID record at all, yet a live process matches the
daemon command-line pattern. -/
def c7State : SysState :=
  { pidFile := none, procs := [9], daemonPat := [9],
    diesOnTerm := fun _ => true, pgrepAvailable := true }

/-- C7 counterexample: with no PID record but a live process matching
the daemon pattern, `kill_existing_player` kills by `pgrep` pattern
and returns `true`, and `stop` reports a player was stopped — the
claim's "no record or stale record implies nothing stopped" fails. -/
theorem C7_counterexample :
    c7State.pidFile = none ∧
    (kill_existing_player c7State).killed = true ∧
    (stop c7State).echo = ["Stopped BGM player"] :=
  ⟨rfl, rfl, rfl⟩

/-- C7 amended: when no live process matches the daemon pattern (so
`pgrep` reports nothing; vacuous when `pgrep` is unavailable) and the
PID record is absent or names a dead process, `kill_existing_player`
returns `false`, `stop` prints that no BGM player is running, and the
only state change is that the stale record, if any, is removed. -/
theorem C7_amended (st : SysState)
    (hrec : st.pidFile = none ∨
      ∃ s pid, st.pidFile = some s ∧ parse_int s = some pid ∧
        alive st pid = false)
    (hpg : st.pgrepAvailable = true → pgrepList st = []) :
    (kill_existing_player st).killed = false ∧
    (kill_existing_player st).st = { st with pidFile := none } ∧
    (stop st).st = { st with pidFile := none } ∧
    (stop st).echo = ["No BGM player is currently running"] := by
  obtain ⟨pf, prs, dp, dt, pa⟩ := st
  have hk : (kill_existing_player ⟨pf, prs, dp, dt, pa⟩).killed = false ∧
      (kill_existing_player ⟨pf, prs, dp, dt, pa⟩).st =
        ⟨none, prs, dp, dt, pa⟩ := by
    cases pa with
    | false =>
      rcases hrec with hfile | ⟨s, pid, hs, hparse, hdead⟩
      · subst hfile
        simp [kill_existing_player]
      · subst hs
        simp [kill_existing_player, hparse, hdead]
    | true =>
      have hl : pgrepList ⟨pf, prs, dp, dt, true⟩ = [] := hpg rfl
      cases pf with
      | none => simp [kill_existing_player, hl, cleanupBottom]
      | some s => simp [kill_existing_player, hl, cleanupBottom]
  refine ⟨hk.1, hk.2, ?_, ?_⟩
  · simp only [stop]
    exact hk.2
  · simp [stop, hk.1]

/-- State for the C7 witness: a stale record ("3" with no live
process), `pgrep` available and reporting nothing. -/
def c7StaleState : SysState :=
  { pidFile := some "3", procs := [], daemonPat := [],
    diesOnTerm := fun _ => false, pgrepAvailable := true }

/-- C7 amended, witnessed at a stale-record state: nothing is stopped
and the stale record is removed. -/
theorem C7_amended_witness :
    (kill_existing_player c7StaleState).killed = false ∧
    (kill_existing_player c7StaleState).st =
      { c7StaleState with pidFile := none } ∧
    (stop c7StaleState).st = { c7StaleState with pidFile := none } ∧
    (stop c7StaleState).echo = ["No BGM player is currently running"] :=
  C7_amended c7StaleState (Or.inr ⟨"3", 3, rfl, by decide, rfl⟩)
    (fun _ => rfl)

end AiBgm
